import Mathlib

/-!
Shallow embedding of the WinRT audio capture module
(source/core/audio/windows/audio_sys_winrt.cpp): session data model,
callback registration, capture-thread loop, lifecycle controller,
option setting and the asynchronous activation completion handler.

Pointers (function pointers and opaque contexts) are modelled as natural
numbers, with 0 playing the role of NULL.  HRESULT values are modelled as
integers; the Windows FAILED(hr) test is hr < 0, S_OK is 0 and E_FAIL is
the usual negative constant.
-/

namespace AudioSysWinrt

/-- FAILED(hr) on Windows: the severity bit is set, i.e. the signed value
is negative. -/
def FAILED (hr : Int) : Prop := hr < 0

instance (hr : Int) : Decidable (FAILED hr) := by
  unfold FAILED; infer_instance

def S_OK : Int := 0

def E_FAIL : Int := -2147467259

/-- AUDIO_STATE from audio_sys.h (the states used by this file). -/
inductive AUDIO_STATE where
  | STOPPED
  | STARTING
  | RUNNING
deriving DecidableEq, Repr

/-- AUDIO_RESULT codes from audio_sys.h used by this file. -/
inductive AUDIO_RESULT where
  | OK
  | INVALID_ARG
  | INVALID_STATE
  | ERROR
deriving DecidableEq, Repr

/-- AUDIO_SYS_DATA_TAG: the per-session structure.  Function pointers and
opaque contexts are Nat with 0 = NULL; COM pointers and event handles that
the claims only ever test against NULL are Bool (true = non-null);
hDeviceName is an Option String (none = NULL STRING_HANDLE);
hCaptureThreadJoinable models std::thread::joinable(). -/
structure AUDIO_SYS_DATA where
  error_cb : Nat
  output_state_cb : Nat
  input_state_cb : Nat
  audio_write_cb : Nat
  user_write_ctx : Nat
  user_outputctx : Nat
  user_inputctx : Nat
  user_errorctx : Nat
  current_output_state : AUDIO_STATE
  current_input_state : AUDIO_STATE
  hDeviceName : Option String
  inputFrameCnt : Nat
  hBufferReady : Bool
  pAudioInputClient : Bool
  hCaptureThreadJoinable : Bool
deriving DecidableEq, Repr

/-- audio_setcallbacks (audio_sys_winrt.cpp:269-297).  The handle is
Option AUDIO_SYS_DATA (none = NULL).  The source assigns user_errorctx
twice in a row: first error_ctx, then error_cb; both assignments are kept
here exactly as written. -/
def audio_setcallbacks (handle : Option AUDIO_SYS_DATA)
    (output_cb : Nat) (output_ctx : Nat)
    (input_cb : Nat) (input_ctx : Nat)
    (audio_write_cb : Nat) (audio_write_ctx : Nat)
    (error_cb : Nat) (error_ctx : Nat) :
    AUDIO_RESULT × Option AUDIO_SYS_DATA :=
  match handle with
  | none => (AUDIO_RESULT.INVALID_ARG, none)
  | some audioData =>
    if audio_write_cb ≠ 0 then
      let audioData := { audioData with error_cb := error_cb }
      let audioData := { audioData with user_errorctx := error_ctx }
      let audioData := { audioData with user_errorctx := error_cb }
      let audioData := { audioData with input_state_cb := input_cb }
      let audioData := { audioData with user_inputctx := input_ctx }
      let audioData := { audioData with output_state_cb := output_cb }
      let audioData := { audioData with user_outputctx := output_ctx }
      let audioData := { audioData with audio_write_cb := audio_write_cb }
      let audioData := { audioData with user_write_ctx := audio_write_ctx }
      (AUDIO_RESULT.OK, some audioData)
    else
      (AUDIO_RESULT.INVALID_ARG, some audioData)

/-- Observable events emitted while the capture thread runs: input-state
callback invocations (with the context and state they are called with),
frame-write callback invocations (with the context and delivered byte
count), the delete of the scratch buffer, and the release of the
capture-data service handle. -/
inductive TEvent where
  | stateCb (ctx : Nat) (st : AUDIO_STATE)
  | writeCb (ctx : Nat) (bytes : Nat)
  | freeBuffer
  | releaseClient
deriving DecidableEq, Repr

/-- One iteration of the inner drain loop, as seen from the environment:
the HRESULT and size reported by GetNextPacketSize, and (when the size is
non-zero) the HRESULT of GetBufferAndCallBackClient, the byte count it
hands to the frame-write callback, and the app-stop flag (audio_result)
the callback returns through it. -/
structure DrainStep where
  qhr : Int
  size : Nat
  bhr : Int
  bytes : Nat
  appStop : Bool
deriving DecidableEq, Repr

/-- One wakeup of WaitForMultipleObjects: which of the two events
(shutdown-requested, buffer-ready) are signaled, and the drain-loop
iterations the platform serves if the drain path is taken.  A wakeup only
occurs when at least one signal is set. -/
structure Wakeup where
  shutdown : Bool
  ready : Bool
  drain : List DrainStep
deriving DecidableEq, Repr

/-- Environment of one capture-thread run: the HRESULT of
GetService(IID_IAudioCaptureClient), whether the scratch-buffer allocation
returns a non-null pointer, and the sequence of wait wakeups. -/
structure CaptureEnv where
  getServiceHr : Int
  allocOk : Bool
  wakeups : List Wakeup
deriving DecidableEq, Repr

/-- WaitForMultipleObjects(2, allEvents, false, INFINITE) where index 0 is
hCaptureThreadShouldExit and index 1 is hBufferReady: with bWaitAll=false
the lowest signaled index wins, so index 0 wins a tie (documented platform
semantics; a wakeup presumes at least one signal is set). -/
def waitForMultipleObjects2 (shutdown ready : Bool) : Nat :=
  if shutdown then 0 else if ready then 1 else 0

/-- GetBufferAndCallBackClient (windows/audio_sys_win_base.cpp, outside
src/).  Modelled from the spec: copies the available samples into the
scratch buffer and invokes the registered frame-write callback with the
buffer pointer and byte count; a platform error during buffer retrieval
aborts without delivering; the callback's return value is the
application-level stop request (audio_result).  The environment supplies
the HRESULT, byte count and stop flag in the DrainStep. -/
def GetBufferAndCallBackClient (writeCtx : Nat) (s : DrainStep) :
    Int × List TEvent × Bool :=
  if FAILED s.bhr then
    (s.bhr, [], false)
  else
    (s.bhr, [TEvent.writeCb writeCtx s.bytes], s.appStop)

/-- The inner while(1) drain loop of captureThreadProc
(audio_sys_winrt.cpp:337-361), driven by a finite list of environment
steps (an empty list behaves like a zero packet size: the loop returns to
the wait).  Returns the emitted events, the updated session data, and
whether the loop jumped to Exit (EXIT_ON_ERROR on GetNextPacketSize or
GetBufferAndCallBackClient). -/
def drainOnce (d : AUDIO_SYS_DATA) :
    List DrainStep → List TEvent × AUDIO_SYS_DATA × Bool
  | [] => ([], d, false)
  | s :: rest =>
    if FAILED s.qhr then
      ([], d, true)
    else if s.size = 0 then
      ([], d, false)
    else
      let (bhr, evs, audio_result) := GetBufferAndCallBackClient d.user_write_ctx s
      if FAILED bhr then
        (evs, d, true)
      else if audio_result then
        let d2 := { d with current_input_state := AUDIO_STATE.STOPPED }
        let evs2 :=
          if d2.input_state_cb ≠ 0 then
            [TEvent.stateCb d2.user_inputctx AUDIO_STATE.STOPPED]
          else []
        let (evs3, d3, ex) := drainOnce d2 rest
        (evs ++ evs2 ++ evs3, d3, ex)
      else
        let (evs3, d3, ex) := drainOnce d rest
        (evs ++ evs3, d3, ex)

/-- The outer for(;;) loop of captureThreadProc
(audio_sys_winrt.cpp:332-367).  Each wakeup whose wait result is index 1
runs the drain loop; any other wait result jumps to Exit.  The final Bool
is true when the loop was left for the Exit label; if the environment
trace runs out first the thread is still blocked on the wait (false). -/
def captureLoop (d : AUDIO_SYS_DATA) :
    List Wakeup → List TEvent × AUDIO_SYS_DATA × Bool
  | [] => ([], d, false)
  | w :: rest =>
    if waitForMultipleObjects2 w.shutdown w.ready = 1 then
      let (evs, d2, ex) := drainOnce d w.drain
      if ex then
        (evs, d2, true)
      else
        let (evs2, d3, ex2) := captureLoop d2 rest
        (evs ++ evs2, d3, ex2)
    else
      ([], d, true)

/-- The Exit label of captureThreadProc (audio_sys_winrt.cpp:369-380):
delete[] the scratch buffer (a no-op delete when it was never allocated),
force the persisted input state to STOPPED, invoke the input-state
callback with STOPPED when one is registered, release the capture client
service handle. -/
def exitPath (d : AUDIO_SYS_DATA) : List TEvent × AUDIO_SYS_DATA :=
  let d2 := { d with current_input_state := AUDIO_STATE.STOPPED }
  let evs :=
    if d2.input_state_cb ≠ 0 then
      [TEvent.stateCb d2.user_inputctx AUDIO_STATE.STOPPED]
    else []
  (TEvent.freeBuffer :: (evs ++ [TEvent.releaseClient]), d2)

/-- captureThreadProc (audio_sys_winrt.cpp:299-381): entry notification
(STARTING, guarded by a null check), persisted state set to RUNNING,
GetService, scratch-buffer allocation of inputFrameCnt * nBlockAlign
bytes, then the wait/drain loop; every path that leaves the loop falls
through the single Exit label.  Returns the event trace, the final session
data, and whether the thread terminated (true) or is still blocked on the
wait because the environment trace ended (false). -/
def captureThreadProc (d : AUDIO_SYS_DATA) (env : CaptureEnv) :
    List TEvent × AUDIO_SYS_DATA × Bool :=
  let entry :=
    if d.input_state_cb ≠ 0 then
      [TEvent.stateCb d.user_inputctx AUDIO_STATE.STARTING]
    else []
  let d1 := { d with current_input_state := AUDIO_STATE.RUNNING }
  if FAILED env.getServiceHr then
    let (evs, d2) := exitPath d1
    (entry ++ evs, d2, true)
  else if !env.allocOk then
    let (evs, d2) := exitPath d1
    (entry ++ evs, d2, true)
  else
    let (evs, d2, ex) := captureLoop d1 env.wakeups
    if ex then
      let (evs2, d3) := exitPath d2
      (entry ++ evs ++ evs2, d3, true)
    else
      (entry ++ evs, d2, false)

/-- audio_create (audio_sys_winrt.cpp:182-206): the structure is
zero-initialized (all pointers NULL), both persisted states are set to
STOPPED, inputFrameCnt to 160, then audio_input_create runs the
asynchronous activation whose overall HRESULT the environment supplies;
on failure the partial structure is deleted and NULL returned.  On success
the activation has populated pAudioInputClient and the WASAPICapture
constructor created hBufferReady. -/
def audio_create (activateHr : Int) : Option AUDIO_SYS_DATA :=
  if FAILED activateHr then
    none
  else
    some
      { error_cb := 0
        output_state_cb := 0
        input_state_cb := 0
        audio_write_cb := 0
        user_write_ctx := 0
        user_outputctx := 0
        user_inputctx := 0
        user_errorctx := 0
        current_output_state := AUDIO_STATE.STOPPED
        current_input_state := AUDIO_STATE.STOPPED
        hDeviceName := none
        inputFrameCnt := 160
        hBufferReady := true
        pAudioInputClient := true
        hCaptureThreadJoinable := false }

/-- Side effects of one audio_input_start call: whether a capture thread
was spawned and whether IAudioClient::Start was invoked. -/
structure StartEff where
  spawned : Bool
  nativeStarted : Bool
deriving DecidableEq, Repr

/-- audio_input_start (audio_sys_winrt.cpp:384-410).  startHr is the
environment-supplied HRESULT of IAudioClient::Start.  Returns the result
code, the updated handle (the joinable flag is the only field the
controller itself mutates) and the effects.  EXIT_ON_ERROR_IF(E_FAIL,
hr != S_OK) maps any non-S_OK start result to AUDIO_RESULT_ERROR. -/
def audio_input_start (handle : Option AUDIO_SYS_DATA) (startHr : Int) :
    AUDIO_RESULT × Option AUDIO_SYS_DATA × StartEff :=
  match handle with
  | none => (AUDIO_RESULT.INVALID_ARG, none, ⟨false, false⟩)
  | some audioData =>
    if !audioData.hBufferReady then
      (AUDIO_RESULT.INVALID_ARG, some audioData, ⟨false, false⟩)
    else if audioData.audio_write_cb = 0 ∨ !audioData.pAudioInputClient ∨
        audioData.current_input_state = AUDIO_STATE.RUNNING then
      (AUDIO_RESULT.INVALID_STATE, some audioData, ⟨false, false⟩)
    else
      let spawned := !audioData.hCaptureThreadJoinable
      let audioData :=
        if spawned then { audioData with hCaptureThreadJoinable := true }
        else audioData
      let result :=
        if startHr = S_OK then AUDIO_RESULT.OK else AUDIO_RESULT.ERROR
      (result, some audioData, ⟨spawned, true⟩)

/-- Side effects of one audio_input_stop call: whether
IAudioClient::Stop was invoked, whether hCaptureThreadShouldExit was
signaled, and whether the capture thread was joined. -/
structure StopEff where
  nativeStopped : Bool
  signaled : Bool
  joined : Bool
deriving DecidableEq, Repr

/-- audio_input_stop (audio_sys_winrt.cpp:412-441).  NULL handle yields
INVALID_ARG; a state other than RUNNING yields INVALID_STATE with no
effects; otherwise the native stream is stopped, the shutdown event set,
the thread joined when joinable, and OK returned.  The controller itself
does not touch current_input_state (the capture thread does, on its exit
path). -/
def audio_input_stop (handle : Option AUDIO_SYS_DATA) :
    AUDIO_RESULT × Option AUDIO_SYS_DATA × StopEff :=
  match handle with
  | none => (AUDIO_RESULT.INVALID_ARG, none, ⟨false, false, false⟩)
  | some audioData =>
    if audioData.current_input_state ≠ AUDIO_STATE.RUNNING then
      (AUDIO_RESULT.INVALID_STATE, some audioData, ⟨false, false, false⟩)
    else
      let joined := audioData.hCaptureThreadJoinable
      let audioData :=
        if joined then { audioData with hCaptureThreadJoinable := false }
        else audioData
      (AUDIO_RESULT.OK, some audioData, ⟨true, true, joined⟩)

/-- A const void* option value: an int for the frame-count option, a
C string for the device-name option (none = NULL). -/
inductive AValue where
  | intVal (n : Int)
  | strVal (s : String)
deriving DecidableEq, Repr

/-- (size_t)*((int*)value): read the int and convert to size_t (wrap
modulo 2^64 for negative values).  Reading through a mismatched cast is
not modelled: a string value reads as 0. -/
def valueAsSizeT : AValue → Nat
  | AValue.intVal n => ((n % (2 ^ 64 : Int) + 2 ^ 64) % 2 ^ 64).toNat
  | AValue.strVal _ => 0

/-- reinterpret_cast of the value to const char*; a mismatched cast is
not modelled: an int value reads as the empty string. -/
def valueAsStr : AValue → String
  | AValue.intVal _ => ""
  | AValue.strVal s => s

def AUDIO_OPTION_INPUT_FRAME_COUNT : String := "input_frame_count"

def AUDIO_OPTION_DEVICENAME : String := "devicename"

/-- STRING_construct of azure-c-shared-utility (external collaborator):
allocates a string store holding a copy of the argument; allocation is
modelled as succeeding. -/
def STRING_construct (s : String) : Option String := some s

/-- STRING_copy of azure-c-shared-utility (external collaborator):
overwrites the contents of an existing store with the argument; the store
itself stays allocated. -/
def STRING_copy (h : Option String) (s : String) : Option String :=
  h.map (fun _ => s)

/-- audio_set_options (audio_sys_winrt.cpp:444-483).  Frame-count: copy
the int (or 0 when value is NULL).  Device-name: STRING_construct when no
store exists yet, else STRING_copy into it; a NULL value means the empty
string; OK is returned only if the store is non-null afterwards.
Everything else falls through to INVALID_ARG. -/
def audio_set_options (handle : Option AUDIO_SYS_DATA)
    (optionName : String) (value : Option AValue) :
    AUDIO_RESULT × Option AUDIO_SYS_DATA :=
  match handle with
  | none => (AUDIO_RESULT.INVALID_ARG, none)
  | some audioData =>
    if optionName = AUDIO_OPTION_INPUT_FRAME_COUNT then
      match value with
      | some v =>
        (AUDIO_RESULT.OK, some { audioData with inputFrameCnt := valueAsSizeT v })
      | none =>
        (AUDIO_RESULT.OK, some { audioData with inputFrameCnt := 0 })
    else if optionName = AUDIO_OPTION_DEVICENAME then
      let audioData :=
        match audioData.hDeviceName with
        | none =>
          match value with
          | some v =>
            { audioData with hDeviceName := STRING_construct (valueAsStr v) }
          | none =>
            { audioData with hDeviceName := STRING_construct "" }
        | some _ =>
          match value with
          | some v =>
            { audioData with
                hDeviceName := STRING_copy audioData.hDeviceName (valueAsStr v) }
          | none =>
            { audioData with hDeviceName := STRING_copy audioData.hDeviceName "" }
      if audioData.hDeviceName.isSome then
        (AUDIO_RESULT.OK, some audioData)
      else
        (AUDIO_RESULT.INVALID_ARG, some audioData)
    else
      (AUDIO_RESULT.INVALID_ARG, some audioData)

/-- Environment of one WASAPICapture::ActivateCompleted invocation: the
HRESULT of operation->GetActivateResult, the activation HRESULT it
reports, whether CopyTo leaves pAudioInputClient null, and the HRESULTs
of IAudioClient::Initialize and SetEventHandle. -/
structure ActivateEnv where
  getActivateResultHr : Int
  hrActivateResult : Int
  clientNull : Bool
  initializeHr : Int
  setEventHandleHr : Int
deriving DecidableEq, Repr

/-- Observable events of ActivateCompleted: the Release of the client
handle, and the set_value on the single-assignment promise with the
HRESULT it publishes. -/
inductive AEvent where
  | released
  | promiseSet (hr : Int)
deriving DecidableEq, Repr

/-- The Exit label of ActivateCompleted (audio_sys_winrt.cpp:147-155):
if FAILED(hr) the client is released, then the promise is satisfied with
hr, and the method returns S_OK. -/
def activateExit (hr : Int) : List AEvent × Int :=
  ((if FAILED hr then [AEvent.released] else []) ++ [AEvent.promiseSet hr], S_OK)

/-- WASAPICapture::ActivateCompleted (audio_sys_winrt.cpp:109-156).
EXIT_ON_ERROR and EXIT_ON_ERROR_IF come from windows/audio_sys_win_base.h
(outside src/).  Modelled from the spec: each jumps to Exit carrying the
first encountered failure code in hr ("report the final result (success
or first encountered failure code) through a single-assignment result
slot").  Every path falls through the single Exit label. -/
def ActivateCompleted (env : ActivateEnv) : List AEvent × Int :=
  if FAILED env.getActivateResultHr then
    activateExit env.getActivateResultHr
  else if FAILED env.hrActivateResult then
    activateExit env.hrActivateResult
  else if env.clientNull then
    activateExit E_FAIL
  else if FAILED env.initializeHr then
    activateExit env.initializeHr
  else
    activateExit env.setEventHandleHr

/-- The result the spec promises the slot receives: the first encountered
failure code along GetActivateResult, the inner activation result, the
null-interface check (E_FAIL), Initialize and SetEventHandle — or, when
none failed, the (successful) result of the last step. -/
def activationResultSpec (env : ActivateEnv) : Int :=
  (([env.getActivateResultHr, env.hrActivateResult,
     if env.clientNull then E_FAIL else S_OK,
     env.initializeHr, env.setEventHandleHr].find?
      (fun hr => decide (FAILED hr))).getD env.setEventHandleHr)

/-- A sequential view of one session: the session data plus whether a
capture thread is live.  Used to state lifecycle claims about the
sequential interleaving in which the spawned thread's entry prologue runs
before start returns and the joined thread's exit path runs inside
stop. -/
structure Session where
  data : AUDIO_SYS_DATA
deriving DecidableEq, Repr

/-- The capture thread's entry prologue (audio_sys_winrt.cpp:315-319):
STARTING notification (guarded), then persisted state := RUNNING. -/
def threadEntry (d : AUDIO_SYS_DATA) : List TEvent × AUDIO_SYS_DATA :=
  ((if d.input_state_cb ≠ 0 then
      [TEvent.stateCb d.user_inputctx AUDIO_STATE.STARTING]
    else []),
   { d with current_input_state := AUDIO_STATE.RUNNING })

/-- start in the sequential interleaving: audio_input_start, and when it
spawned a thread, that thread's entry prologue runs before the call
returns. -/
def seqStart (s : Session) (startHr : Int) :
    AUDIO_RESULT × Session × List TEvent :=
  match audio_input_start (some s.data) startHr with
  | (r, some d, eff) =>
    if eff.spawned then
      let (evs, d2) := threadEntry d
      (r, ⟨d2⟩, evs)
    else
      (r, ⟨d⟩, [])
  | (r, none, _) => (r, s, [])

/-- stop in the sequential interleaving: audio_input_stop, and when it
joined the capture thread, that thread's exit path (woken by the shutdown
event) ran to completion before join returned. -/
def seqStop (s : Session) : AUDIO_RESULT × Session × List TEvent :=
  match audio_input_stop (some s.data) with
  | (r, some d, eff) =>
    if eff.joined then
      let (evs, d2) := exitPath d
      (r, ⟨d2⟩, evs)
    else
      (r, ⟨d⟩, [])
  | (r, none, _) => (r, s, [])

/-- Recognizer for input-state-callback invocation events. -/
def isStateCb : TEvent → Bool
  | TEvent.stateCb _ _ => true
  | _ => false

/-- Recognizer for promise set_value events. -/
def isPromiseSet : AEvent → Bool
  | AEvent.promiseSet _ => true
  | _ => false

/-- The session data produced by a successful audio_create: all callback
and context slots NULL, both states STOPPED, frame count 160, client and
buffer-ready event present, no thread yet.  Used as a concrete session
for witnesses. -/
def data0 : AUDIO_SYS_DATA :=
  { error_cb := 0
    output_state_cb := 0
    input_state_cb := 0
    audio_write_cb := 0
    user_write_ctx := 0
    user_outputctx := 0
    user_inputctx := 0
    user_errorctx := 0
    current_output_state := AUDIO_STATE.STOPPED
    current_input_state := AUDIO_STATE.STOPPED
    hDeviceName := none
    inputFrameCnt := 160
    hBufferReady := true
    pAudioInputClient := true
    hCaptureThreadJoinable := false }

/-- Recognizer for scratch-buffer-free events. -/
def isFreeBuffer : TEvent → Bool
  | TEvent.freeBuffer => true
  | _ => false

/-- Number of scratch-buffer frees in a trace. -/
def countFree (evs : List TEvent) : Nat := evs.countP isFreeBuffer

/-- Number of input-state-callback invocations in a trace. -/
def countStateCb (evs : List TEvent) : Nat := evs.countP isStateCb

theorem drainOnce_data_eq :
    ∀ (steps : List DrainStep) (d : AUDIO_SYS_DATA),
    ∃ st, (drainOnce d steps).2.1 = { d with current_input_state := st }
  | [], d => ⟨d.current_input_state, rfl⟩
  | s :: rest, d => by
    by_cases hq : FAILED s.qhr
    · exact ⟨d.current_input_state, by simp [drainOnce, hq]⟩
    · by_cases hz : s.size = 0
      · exact ⟨d.current_input_state, by simp [drainOnce, hq, hz]⟩
      · by_cases hb : FAILED s.bhr
        · exact ⟨d.current_input_state,
            by simp [drainOnce, GetBufferAndCallBackClient, hq, hz, hb]⟩
        · by_cases ha : s.appStop
          · obtain ⟨st, hst⟩ :=
              drainOnce_data_eq rest
                { d with current_input_state := AUDIO_STATE.STOPPED }
            exact ⟨st,
              by simp [drainOnce, GetBufferAndCallBackClient, hq, hz, hb, ha, hst]⟩
          · obtain ⟨st, hst⟩ := drainOnce_data_eq rest d
            exact ⟨st,
              by simp [drainOnce, GetBufferAndCallBackClient, hq, hz, hb, ha, hst]⟩

theorem captureLoop_data_eq :
    ∀ (ws : List Wakeup) (d : AUDIO_SYS_DATA),
    ∃ st, (captureLoop d ws).2.1 = { d with current_input_state := st }
  | [], d => ⟨d.current_input_state, rfl⟩
  | w :: rest, d => by
    by_cases hw : waitForMultipleObjects2 w.shutdown w.ready = 1
    · obtain ⟨st1, hst1⟩ := drainOnce_data_eq w.drain d
      by_cases hex : (drainOnce d w.drain).2.2
      · exact ⟨st1, by simp [captureLoop, hw, hex, hst1]⟩
      · obtain ⟨st2, hst2⟩ := captureLoop_data_eq rest (drainOnce d w.drain).2.1
        rw [hst1] at hst2
        refine ⟨st2, ?_⟩
        simp only [captureLoop, hw, if_pos rfl]
        simp [hex, hst1]
        simpa using hst2
    · exact ⟨d.current_input_state, by simp [captureLoop, hw]⟩

theorem drainOnce_countFree :
    ∀ (steps : List DrainStep) (d : AUDIO_SYS_DATA),
    countFree (drainOnce d steps).1 = 0
  | [], d => rfl
  | s :: rest, d => by
    by_cases hq : FAILED s.qhr
    · simp [drainOnce, hq, countFree]
    · by_cases hz : s.size = 0
      · simp [drainOnce, hq, hz, countFree]
      · by_cases hb : FAILED s.bhr
        · simp [drainOnce, GetBufferAndCallBackClient, hq, hz, hb, countFree,
            isFreeBuffer]
        · by_cases ha : s.appStop
          · have ih :=
              drainOnce_countFree rest
                { d with current_input_state := AUDIO_STATE.STOPPED }
            by_cases hcb :
                ({ d with current_input_state := AUDIO_STATE.STOPPED } :
                  AUDIO_SYS_DATA).input_state_cb ≠ 0 <;>
              simp_all [drainOnce, GetBufferAndCallBackClient, hq, hz, hb, ha,
                countFree, isFreeBuffer]
          · have ih := drainOnce_countFree rest d
            simp_all [drainOnce, GetBufferAndCallBackClient, hq, hz, hb, ha,
              countFree, isFreeBuffer]

theorem captureLoop_countFree :
    ∀ (ws : List Wakeup) (d : AUDIO_SYS_DATA),
    countFree (captureLoop d ws).1 = 0
  | [], d => rfl
  | w :: rest, d => by
    by_cases hw : waitForMultipleObjects2 w.shutdown w.ready = 1
    · have h1 := drainOnce_countFree w.drain d
      have h2 := captureLoop_countFree rest (drainOnce d w.drain).2.1
      by_cases hex : (drainOnce d w.drain).2.2 <;>
        simp_all [captureLoop, hw, countFree]
    · simp [captureLoop, hw, countFree]

theorem drainOnce_countStateCb_zero :
    ∀ (steps : List DrainStep) (d : AUDIO_SYS_DATA),
    d.input_state_cb = 0 → countStateCb (drainOnce d steps).1 = 0
  | [], d, _ => rfl
  | s :: rest, d, h => by
    by_cases hq : FAILED s.qhr
    · simp [drainOnce, hq, countStateCb]
    · by_cases hz : s.size = 0
      · simp [drainOnce, hq, hz, countStateCb]
      · by_cases hb : FAILED s.bhr
        · simp [drainOnce, GetBufferAndCallBackClient, hq, hz, hb, countStateCb,
            isStateCb]
        · by_cases ha : s.appStop
          · have ih :=
              drainOnce_countStateCb_zero rest
                { d with current_input_state := AUDIO_STATE.STOPPED } h
            simp_all [drainOnce, GetBufferAndCallBackClient, hq, hz, hb, ha,
              countStateCb, isStateCb]
          · have ih := drainOnce_countStateCb_zero rest d h
            simp_all [drainOnce, GetBufferAndCallBackClient, hq, hz, hb, ha,
              countStateCb, isStateCb]

theorem captureLoop_countStateCb_zero :
    ∀ (ws : List Wakeup) (d : AUDIO_SYS_DATA),
    d.input_state_cb = 0 → countStateCb (captureLoop d ws).1 = 0
  | [], d, _ => rfl
  | w :: rest, d, h => by
    by_cases hw : waitForMultipleObjects2 w.shutdown w.ready = 1
    · have h1 := drainOnce_countStateCb_zero w.drain d h
      obtain ⟨st, hst⟩ := drainOnce_data_eq w.drain d
      have h2 :
          countStateCb (captureLoop (drainOnce d w.drain).2.1 rest).1 = 0 := by
        apply captureLoop_countStateCb_zero
        rw [hst]
        simpa using h
      by_cases hex : (drainOnce d w.drain).2.2 <;>
        simp_all [captureLoop, hw, countStateCb]
    · simp [captureLoop, hw, countStateCb]

/-- A session with a registered write callback whose input state is
RUNNING and whose capture thread is live; used as a concrete input in
witnesses. -/
def dRun : AUDIO_SYS_DATA :=
  { data0 with
      audio_write_cb := 5
      user_write_ctx := 6
      current_input_state := AUDIO_STATE.RUNNING
      hCaptureThreadJoinable := true }

/-- A running session that additionally has an input-state callback
registered; used as a concrete input in witnesses. -/
def dCb : AUDIO_SYS_DATA :=
  { dRun with input_state_cb := 3, user_inputctx := 4 }

/-- A drain step whose frame-write callback requests an application-level
stop: both platform calls succeed, 320 bytes are delivered, audio_result
is set. -/
def sAppStop : DrainStep := ⟨S_OK, 320, S_OK, 320, true⟩

/-- A drain step reporting packet size zero. -/
def sZero : DrainStep := ⟨S_OK, 0, S_OK, 0, false⟩

/-- Claim C1: the claim says setCallbacks stores each opaque context in
its context slot, in particular error_ctx in user_errorctx.  The code
(audio_sys_winrt.cpp:285-286) assigns user_errorctx = error_ctx and then
immediately user_errorctx = error_cb, so the error-context slot ends up
holding the error callback pointer, not the given context: with error_cb
= 7 and error_ctx = 8 the call returns OK but user_errorctx is 7, not
8. -/
theorem C1_setcallbacks_errorctx_bug :
    (audio_setcallbacks (some data0) 1 2 3 4 5 6 7 8).1 = AUDIO_RESULT.OK ∧
    ((audio_setcallbacks (some data0) 1 2 3 4 5 6 7 8).2.map
      (fun d => d.user_errorctx)) = some 7 ∧
    (7 : Nat) ≠ 8 := by
  exact ⟨rfl, rfl, by decide⟩

/-- Claim C4: for every session (hBufferReady present, as every
successfully created session has), start on an already-RUNNING state, or
with no registered write callback, or with no client handle, returns
INVALID_STATE, leaves the session unchanged (in particular no second
capture thread becomes joinable) and neither spawns a thread nor starts
the native stream. -/
theorem C4_start_rejected (d : AUDIO_SYS_DATA) (startHr : Int)
    (hb : d.hBufferReady = true)
    (h : d.current_input_state = AUDIO_STATE.RUNNING ∨ d.audio_write_cb = 0 ∨
      d.pAudioInputClient = false) :
    audio_input_start (some d) startHr =
      (AUDIO_RESULT.INVALID_STATE, some d, ⟨false, false⟩) := by
  rcases h with h | h | h <;> simp [audio_input_start, hb, h]

/-- Witness for C4 at a concrete RUNNING session. -/
theorem C4_start_rejected_witness :
    dRun.hBufferReady = true ∧
    (dRun.current_input_state = AUDIO_STATE.RUNNING ∨ dRun.audio_write_cb = 0 ∨
      dRun.pAudioInputClient = false) ∧
    audio_input_start (some dRun) S_OK =
      (AUDIO_RESULT.INVALID_STATE, some dRun, ⟨false, false⟩) :=
  ⟨rfl, Or.inl rfl,
    C4_start_rejected dRun S_OK rfl (Or.inl rfl)⟩

/-- Claim C5: stop with a NULL handle returns INVALID_ARG; stop on a
session whose state is not RUNNING returns INVALID_STATE with no native
stop, no shutdown signal and no join; stop on a RUNNING session stops the
native stream, sets the shutdown event, joins the capture thread exactly
when it is joinable, and returns OK. -/
theorem C5_stop_behavior (d : AUDIO_SYS_DATA) :
    audio_input_stop none =
      (AUDIO_RESULT.INVALID_ARG, none, ⟨false, false, false⟩) ∧
    (d.current_input_state ≠ AUDIO_STATE.RUNNING →
      audio_input_stop (some d) =
        (AUDIO_RESULT.INVALID_STATE, some d, ⟨false, false, false⟩)) ∧
    (d.current_input_state = AUDIO_STATE.RUNNING →
      audio_input_stop (some d) =
        (AUDIO_RESULT.OK,
         some (if d.hCaptureThreadJoinable then
                 { d with hCaptureThreadJoinable := false }
               else d),
         ⟨true, true, d.hCaptureThreadJoinable⟩)) := by
  refine ⟨rfl, fun h => by simp [audio_input_stop, h],
    fun h => by simp [audio_input_stop, h]⟩

/-- Witness for C5 at a concrete RUNNING session with a live thread. -/
theorem C5_stop_behavior_witness :
    dRun.current_input_state = AUDIO_STATE.RUNNING ∧
    audio_input_stop (some dRun) =
      (AUDIO_RESULT.OK, some { dRun with hCaptureThreadJoinable := false },
        ⟨true, true, true⟩) :=
  ⟨rfl, (C5_stop_behavior dRun).2.2 rfl⟩

/-- Claim C7: inside the drain loop, when the frame-write callback
requests an application-level stop (and the platform calls succeeded),
the thread immediately sets the persisted state to STOPPED and fires the
input-state callback with STOPPED, then keeps draining the remaining
packets from the STOPPED state; and a queried packet size of zero ends
the drain and returns to the wait without taking the exit path. -/
theorem C7_appstop_keeps_draining (d : AUDIO_SYS_DATA) (s : DrainStep)
    (rest : List DrainStep) (d2 : AUDIO_SYS_DATA) (s0 : DrainStep)
    (rest2 : List DrainStep)
    (hq : ¬ FAILED s.qhr) (hs : s.size ≠ 0) (hb : ¬ FAILED s.bhr)
    (ha : s.appStop = true) (hcb : d.input_state_cb ≠ 0)
    (hq0 : ¬ FAILED s0.qhr) (hs0 : s0.size = 0) :
    drainOnce d (s :: rest) =
      (TEvent.writeCb d.user_write_ctx s.bytes ::
        TEvent.stateCb d.user_inputctx AUDIO_STATE.STOPPED ::
        (drainOnce { d with current_input_state := AUDIO_STATE.STOPPED } rest).1,
       (drainOnce { d with current_input_state := AUDIO_STATE.STOPPED } rest).2) ∧
    drainOnce d2 (s0 :: rest2) = ([], d2, false) := by
  constructor
  · simp [drainOnce, GetBufferAndCallBackClient, hq, hs, hb, ha, hcb]
  · simp [drainOnce, hq0, hs0]

/-- Witness for C7: a stop-requesting packet followed by no further
packets, and a zero-size query. -/
theorem C7_appstop_keeps_draining_witness :
    (¬ FAILED sAppStop.qhr ∧ sAppStop.size ≠ 0 ∧ ¬ FAILED sAppStop.bhr ∧
      sAppStop.appStop = true ∧ dCb.input_state_cb ≠ 0 ∧
      ¬ FAILED sZero.qhr ∧ sZero.size = 0) ∧
    drainOnce dCb [sAppStop] =
      ([TEvent.writeCb 6 320, TEvent.stateCb 4 AUDIO_STATE.STOPPED],
        { dCb with current_input_state := AUDIO_STATE.STOPPED }, false) ∧
    drainOnce data0 [sZero] = ([], data0, false) :=
  ⟨⟨by decide, by decide, by decide, by decide, by decide, by decide, by decide⟩,
    C7_appstop_keeps_draining dCb sAppStop [] data0 sZero []
      (by decide) (by decide) (by decide) (by decide) (by decide)
      (by decide) (by decide)⟩

/-- Claim C8: at every wakeup of the capture loop at which the
shutdown-requested event is signaled, the wait reports index 0 even when
buffer-ready is signaled too, and the loop takes the exit path without
draining anything: no events are emitted, the session data is untouched
and the loop reports that it was left for the Exit label. -/
theorem C8_shutdown_priority (d : AUDIO_SYS_DATA) (w : Wakeup)
    (rest : List Wakeup) (h : w.shutdown = true) :
    waitForMultipleObjects2 w.shutdown w.ready = 0 ∧
    captureLoop d (w :: rest) = ([], d, true) := by
  constructor
  · simp [waitForMultipleObjects2, h]
  · simp [captureLoop, waitForMultipleObjects2, h]

/-- Witness for C8: both signals set simultaneously, with packets ready
to drain that are nevertheless not drained. -/
theorem C8_shutdown_priority_witness :
    (Wakeup.mk true true [sAppStop]).shutdown = true ∧
    (waitForMultipleObjects2 true true = 0 ∧
      captureLoop dCb [⟨true, true, [sAppStop]⟩] = ([], dCb, true)) :=
  ⟨rfl, C8_shutdown_priority dCb ⟨true, true, [sAppStop]⟩ [] rfl⟩

/-- Claim C9: on any session, setOption(deviceName, "mic1") stores
"mic1" and returns OK, and a following setOption(deviceName, NULL)
returns OK and leaves the store allocated and holding the empty string
(it is neither null nor freed). -/
theorem C9_devicename_null_clears (d : AUDIO_SYS_DATA) :
    ∃ d1,
      audio_set_options (some d) AUDIO_OPTION_DEVICENAME
        (some (AValue.strVal "mic1")) = (AUDIO_RESULT.OK, some d1) ∧
      d1.hDeviceName = some "mic1" ∧
      ∃ d2,
        audio_set_options (some d1) AUDIO_OPTION_DEVICENAME none =
          (AUDIO_RESULT.OK, some d2) ∧
        d2.hDeviceName = some "" := by
  have hne : ¬ (AUDIO_OPTION_DEVICENAME = AUDIO_OPTION_INPUT_FRAME_COUNT) := by
    decide
  cases hdn : d.hDeviceName with
  | none =>
    refine ⟨{ d with hDeviceName := some "mic1" }, ?_, rfl,
      { d with hDeviceName := some "" }, ?_, rfl⟩ <;>
      simp [audio_set_options, hne, hdn, STRING_construct, STRING_copy,
        valueAsStr]
  | some x =>
    refine ⟨{ d with hDeviceName := some "mic1" }, ?_, rfl,
      { d with hDeviceName := some "" }, ?_, rfl⟩ <;>
      simp [audio_set_options, hne, hdn, STRING_construct, STRING_copy,
        valueAsStr]

theorem exitPath_events (d : AUDIO_SYS_DATA) :
    (exitPath d).1 =
      TEvent.freeBuffer ::
        ((if d.input_state_cb ≠ 0 then
            [TEvent.stateCb d.user_inputctx AUDIO_STATE.STOPPED]
          else []) ++ [TEvent.releaseClient]) ∧
    (exitPath d).2.current_input_state = AUDIO_STATE.STOPPED ∧
    countFree (exitPath d).1 = 1 := by
  by_cases hcb : d.input_state_cb ≠ 0 <;>
    simp [exitPath, countFree, isFreeBuffer, hcb, List.countP_cons]

theorem countFree_append (l1 l2 : List TEvent) :
    countFree (l1 ++ l2) = countFree l1 + countFree l2 :=
  List.countP_append _ _ _

theorem countStateCb_append (l1 l2 : List TEvent) :
    countStateCb (l1 ++ l2) = countStateCb l1 + countStateCb l2 :=
  List.countP_append _ _ _

theorem captureThreadProc_finished (d : AUDIO_SYS_DATA) (env : CaptureEnv)
    (h : (captureThreadProc d env).2.2 = true) :
    ∃ pre st,
      countFree pre = 0 ∧
      (d.input_state_cb = 0 → countStateCb pre = 0) ∧
      (captureThreadProc d env).1 =
        pre ++ (exitPath { d with current_input_state := st }).1 ∧
      (captureThreadProc d env).2.1 =
        (exitPath { d with current_input_state := st }).2 := by
  have hentry1 :
      countFree (if d.input_state_cb ≠ 0 then
        [TEvent.stateCb d.user_inputctx AUDIO_STATE.STARTING] else []) = 0 := by
    by_cases hcb : d.input_state_cb = 0 <;>
      simp [countFree, isFreeBuffer, hcb]
  have hentry2 : d.input_state_cb = 0 →
      countStateCb (if d.input_state_cb ≠ 0 then
        [TEvent.stateCb d.user_inputctx AUDIO_STATE.STARTING] else []) = 0 := by
    intro hcb
    simp [countStateCb, hcb]
  by_cases hg : FAILED env.getServiceHr
  · refine ⟨_, AUDIO_STATE.RUNNING, hentry1, hentry2, ?_, ?_⟩ <;>
      simp [captureThreadProc, hg]
  · by_cases hal : env.allocOk
    · by_cases hex :
          (captureLoop { d with current_input_state := AUDIO_STATE.RUNNING }
            env.wakeups).2.2
      · obtain ⟨st, hst⟩ := captureLoop_data_eq env.wakeups
          { d with current_input_state := AUDIO_STATE.RUNNING }
        have hloopf := captureLoop_countFree env.wakeups
          { d with current_input_state := AUDIO_STATE.RUNNING }
        have hloops := captureLoop_countStateCb_zero env.wakeups
          { d with current_input_state := AUDIO_STATE.RUNNING }
        refine ⟨(if d.input_state_cb ≠ 0 then
            [TEvent.stateCb d.user_inputctx AUDIO_STATE.STARTING] else []) ++
            (captureLoop { d with current_input_state := AUDIO_STATE.RUNNING }
              env.wakeups).1, st, ?_, ?_, ?_, ?_⟩
        · rw [countFree_append, hentry1, hloopf]
        · intro hcb
          rw [countStateCb_append, hentry2 hcb, hloops hcb]
        · simp [captureThreadProc, hg, hal, hex, hst, List.append_assoc]
        · simp [captureThreadProc, hg, hal, hex, hst]
      · exfalso
        simp [captureThreadProc, hg, hal, hex] at h
    · refine ⟨_, AUDIO_STATE.RUNNING, hentry1, hentry2, ?_, ?_⟩ <;>
        simp [captureThreadProc, hg, hal]

/-- Claim C2: whenever a capture-thread run terminates — via the
shutdown signal, scratch-allocation failure, or a platform error from
service acquisition, packet-size query or buffer retrieval — the trace
frees the scratch buffer exactly once, the final persisted input state is
STOPPED, and the whole trace ends with the exit block: the free, then
(when an input-state callback is registered) exactly one further STOPPED
notification, then the release of the capture service, with no free
before that block. -/
theorem C2_exit_path_once (d : AUDIO_SYS_DATA) (env : CaptureEnv)
    (h : (captureThreadProc d env).2.2 = true) :
    countFree (captureThreadProc d env).1 = 1 ∧
    (captureThreadProc d env).2.1.current_input_state = AUDIO_STATE.STOPPED ∧
    ∃ pre, countFree pre = 0 ∧
      (captureThreadProc d env).1 =
        pre ++ TEvent.freeBuffer ::
          ((if d.input_state_cb ≠ 0 then
              [TEvent.stateCb d.user_inputctx AUDIO_STATE.STOPPED]
            else []) ++ [TEvent.releaseClient]) := by
  obtain ⟨pre, st, hpre, _, htr, hdata⟩ := captureThreadProc_finished d env h
  obtain ⟨he, hs, hc⟩ := exitPath_events { d with current_input_state := st }
  refine ⟨?_, ?_, pre, hpre, ?_⟩
  · rw [htr, countFree_append, hpre, hc]
  · rw [hdata, hs]
  · rw [htr, he]

/-- Claim C10: every input-state-callback invocation made by the capture
thread (entry STARTING, in-drain STOPPED, exit STOPPED) is guarded by a
null check, so a session whose input-state callback slot is NULL produces
a trace with no input-state callback invocation at all, while the thread
still performs its state transitions (whenever it terminates, the
persisted state has been forced to STOPPED). -/
theorem C10_null_callback_guarded (d : AUDIO_SYS_DATA) (env : CaptureEnv)
    (h : d.input_state_cb = 0) :
    countStateCb (captureThreadProc d env).1 = 0 ∧
    ((captureThreadProc d env).2.2 = true →
      (captureThreadProc d env).2.1.current_input_state = AUDIO_STATE.STOPPED) := by
  by_cases hfin : (captureThreadProc d env).2.2 = true
  · obtain ⟨pre, st, _, hpcb, htr, hdata⟩ :=
      captureThreadProc_finished d env hfin
    obtain ⟨he, hs, _⟩ := exitPath_events { d with current_input_state := st }
    constructor
    · rw [htr, countStateCb_append, hpcb h, he]
      simp [countStateCb, isStateCb, h]
    · intro _
      rw [hdata, hs]
  · have hg : ¬ FAILED env.getServiceHr := by
      intro hg
      exact hfin (by simp [captureThreadProc, hg])
    have hal : env.allocOk = true := by
      by_contra hal
      exact hfin (by simp [captureThreadProc, hg, hal])
    have hex :
        ¬ (captureLoop { d with current_input_state := AUDIO_STATE.RUNNING }
          env.wakeups).2.2 = true := by
      intro hex
      exact hfin (by simp [captureThreadProc, hg, hal, hex])
    have hloops := captureLoop_countStateCb_zero env.wakeups
      { d with current_input_state := AUDIO_STATE.RUNNING } h
    constructor
    · have htr : (captureThreadProc d env).1 =
          (if d.input_state_cb ≠ 0 then
            [TEvent.stateCb d.user_inputctx AUDIO_STATE.STARTING] else []) ++
          (captureLoop { d with current_input_state := AUDIO_STATE.RUNNING }
            env.wakeups).1 := by
        simp [captureThreadProc, hg, hal, hex]
      rw [htr, countStateCb_append, hloops]
      simp [countStateCb, h]
    · intro hfin2
      exact absurd hfin2 hfin

/-- A capture-thread environment in which everything succeeds and the
single wakeup is a shutdown request. -/
def envShutdown : CaptureEnv := ⟨S_OK, true, [⟨true, false, []⟩]⟩

/-- Witness for C2: a registered-callback session whose run ends by a
shutdown wakeup. -/
theorem C2_exit_path_once_witness :
    (captureThreadProc dCb envShutdown).2.2 = true ∧
    (countFree (captureThreadProc dCb envShutdown).1 = 1 ∧
     (captureThreadProc dCb envShutdown).2.1.current_input_state =
       AUDIO_STATE.STOPPED ∧
     ∃ pre, countFree pre = 0 ∧
       (captureThreadProc dCb envShutdown).1 =
         pre ++ TEvent.freeBuffer ::
           ((if dCb.input_state_cb ≠ 0 then
               [TEvent.stateCb dCb.user_inputctx AUDIO_STATE.STOPPED]
             else []) ++ [TEvent.releaseClient])) :=
  ⟨by decide, C2_exit_path_once dCb envShutdown (by decide)⟩

/-- Witness for C10: a session with no input-state callback whose run
ends by a shutdown wakeup. -/
theorem C10_null_callback_guarded_witness :
    dRun.input_state_cb = 0 ∧
    (countStateCb (captureThreadProc dRun envShutdown).1 = 0 ∧
     ((captureThreadProc dRun envShutdown).2.2 = true →
       (captureThreadProc dRun envShutdown).2.1.current_input_state =
         AUDIO_STATE.STOPPED)) :=
  ⟨rfl, C10_null_callback_guarded dRun envShutdown rfl⟩

/-- Claim C6: on every control-flow path of ActivateCompleted the promise
is satisfied exactly once, with the success code of the last step or the
first encountered failure code; the method itself returns S_OK; and when
every step up to and including Initialize succeeds but SetEventHandle
fails, the published result is that failure and the client handle is
released before the promise is satisfied. -/
theorem C6_promise_set_once (env : ActivateEnv) :
    (ActivateCompleted env).1.countP (fun e => isPromiseSet e) = 1 ∧
    AEvent.promiseSet (activationResultSpec env) ∈ (ActivateCompleted env).1 ∧
    (ActivateCompleted env).2 = S_OK ∧
    ((¬ FAILED env.getActivateResultHr ∧ ¬ FAILED env.hrActivateResult ∧
      env.clientNull = false ∧ ¬ FAILED env.initializeHr ∧
      FAILED env.setEventHandleHr) →
      (ActivateCompleted env).1 =
        [AEvent.released, AEvent.promiseSet env.setEventHandleHr]) := by
  have hef : FAILED E_FAIL := by decide
  have hok : decide (FAILED S_OK) = false := by decide
  by_cases h1 : FAILED env.getActivateResultHr
  · simp [ActivateCompleted, activateExit, activationResultSpec, isPromiseSet,
      h1, List.find?]
  · by_cases h2 : FAILED env.hrActivateResult
    · simp [ActivateCompleted, activateExit, activationResultSpec, isPromiseSet,
        h1, h2, List.find?]
    · by_cases h3 : env.clientNull
      · simp [ActivateCompleted, activateExit, activationResultSpec,
          isPromiseSet, h1, h2, h3, hef, List.find?]
      · by_cases h4 : FAILED env.initializeHr
        · simp [ActivateCompleted, activateExit, activationResultSpec,
            isPromiseSet, h1, h2, h3, h4, hok, List.find?]
        · by_cases h5 : FAILED env.setEventHandleHr <;>
            simp [ActivateCompleted, activateExit, activationResultSpec,
              isPromiseSet, h1, h2, h3, h4, h5, hok, List.find?]

/-- Witness for C6: full success up to SetEventHandle, which fails. -/
theorem C6_promise_set_once_witness :
    ((¬ FAILED (ActivateEnv.mk S_OK S_OK false S_OK E_FAIL).getActivateResultHr ∧
      ¬ FAILED (ActivateEnv.mk S_OK S_OK false S_OK E_FAIL).hrActivateResult ∧
      (ActivateEnv.mk S_OK S_OK false S_OK E_FAIL).clientNull = false ∧
      ¬ FAILED (ActivateEnv.mk S_OK S_OK false S_OK E_FAIL).initializeHr ∧
      FAILED (ActivateEnv.mk S_OK S_OK false S_OK E_FAIL).setEventHandleHr)) ∧
    ((ActivateCompleted ⟨S_OK, S_OK, false, S_OK, E_FAIL⟩).1.countP
        (fun e => isPromiseSet e) = 1 ∧
     AEvent.promiseSet
         (activationResultSpec ⟨S_OK, S_OK, false, S_OK, E_FAIL⟩) ∈
       (ActivateCompleted ⟨S_OK, S_OK, false, S_OK, E_FAIL⟩).1 ∧
     (ActivateCompleted ⟨S_OK, S_OK, false, S_OK, E_FAIL⟩).2 = S_OK ∧
     ((¬ FAILED (S_OK : Int) ∧ ¬ FAILED (S_OK : Int) ∧ (false : Bool) = false ∧
       ¬ FAILED (S_OK : Int) ∧ FAILED E_FAIL) →
       (ActivateCompleted ⟨S_OK, S_OK, false, S_OK, E_FAIL⟩).1 =
         [AEvent.released, AEvent.promiseSet E_FAIL])) :=
  ⟨by decide, C6_promise_set_once ⟨S_OK, S_OK, false, S_OK, E_FAIL⟩⟩

/-- Claim C3: in a sequential execution, after create succeeds the
persisted input state is STOPPED; after a successful start (write
callback registered, native start succeeding, spawned thread prologue
run) it is RUNNING; after a successful stop (thread joined, its exit path
run) it is STOPPED; and the same holds again on a second start/stop on
the same session. -/
theorem C3_lifecycle_cycle (hr : Int) (hok : ¬ FAILED hr)
    (d0 : AUDIO_SYS_DATA) (hc : audio_create hr = some d0)
    (ocb octx icb ictx wcb wctx ecb ectx : Nat) (hw : wcb ≠ 0)
    (d1 : AUDIO_SYS_DATA)
    (hreg : (audio_setcallbacks
      (some d0) ocb octx icb ictx wcb wctx ecb ectx).2 = some d1) :
    d0.current_input_state = AUDIO_STATE.STOPPED ∧
    (seqStart ⟨d1⟩ S_OK).1 = AUDIO_RESULT.OK ∧
    (seqStart ⟨d1⟩ S_OK).2.1.data.current_input_state = AUDIO_STATE.RUNNING ∧
    (seqStop (seqStart ⟨d1⟩ S_OK).2.1).1 = AUDIO_RESULT.OK ∧
    (seqStop (seqStart ⟨d1⟩ S_OK).2.1).2.1.data.current_input_state =
      AUDIO_STATE.STOPPED ∧
    (seqStart (seqStop (seqStart ⟨d1⟩ S_OK).2.1).2.1 S_OK).1 =
      AUDIO_RESULT.OK ∧
    (seqStart (seqStop (seqStart ⟨d1⟩ S_OK).2.1).2.1
      S_OK).2.1.data.current_input_state = AUDIO_STATE.RUNNING ∧
    (seqStop (seqStart (seqStop (seqStart ⟨d1⟩ S_OK).2.1).2.1 S_OK).2.1).1 =
      AUDIO_RESULT.OK ∧
    (seqStop (seqStart (seqStop (seqStart ⟨d1⟩ S_OK).2.1).2.1
      S_OK).2.1).2.1.data.current_input_state = AUDIO_STATE.STOPPED := by
  have hd0 : d0 = data0 := by
    rw [audio_create, if_neg hok] at hc
    exact (Option.some.injEq _ _ ▸ hc).symm
  subst hd0
  have hd1 : d1 =
      { data0 with
          error_cb := ecb
          user_errorctx := ecb
          input_state_cb := icb
          user_inputctx := ictx
          output_state_cb := ocb
          user_outputctx := octx
          audio_write_cb := wcb
          user_write_ctx := wctx } := by
    rw [audio_setcallbacks] at hreg
    simp only [if_pos hw] at hreg
    exact (Option.some.injEq _ _ ▸ hreg).symm
  subst hd1
  refine ⟨rfl, ?_⟩
  simp [seqStart, seqStop, audio_input_start, audio_input_stop, threadEntry,
    exitPath, data0, S_OK, hw]

/-- The session produced by audio_setcallbacks(data0, 1,2,3,4,5,6,7,8):
all slots registered (user_errorctx holding the error callback pointer,
as the code writes it). -/
def dReg : AUDIO_SYS_DATA :=
  { data0 with
      error_cb := 7
      user_errorctx := 7
      input_state_cb := 3
      user_inputctx := 4
      output_state_cb := 1
      user_outputctx := 2
      audio_write_cb := 5
      user_write_ctx := 6 }

/-- Witness for C3: a freshly created session, callbacks registered, run
through start/stop/start/stop with successful native calls. -/
theorem C3_lifecycle_cycle_witness :
    (¬ FAILED S_OK ∧ audio_create S_OK = some data0 ∧ (5 : Nat) ≠ 0 ∧
     (audio_setcallbacks (some data0) 1 2 3 4 5 6 7 8).2 = some dReg) ∧
    (data0.current_input_state = AUDIO_STATE.STOPPED ∧
     (seqStart ⟨dReg⟩ S_OK).1 = AUDIO_RESULT.OK ∧
     (seqStart ⟨dReg⟩ S_OK).2.1.data.current_input_state =
       AUDIO_STATE.RUNNING ∧
     (seqStop (seqStart ⟨dReg⟩ S_OK).2.1).1 = AUDIO_RESULT.OK ∧
     (seqStop (seqStart ⟨dReg⟩ S_OK).2.1).2.1.data.current_input_state =
       AUDIO_STATE.STOPPED ∧
     (seqStart (seqStop (seqStart ⟨dReg⟩ S_OK).2.1).2.1 S_OK).1 =
       AUDIO_RESULT.OK ∧
     (seqStart (seqStop (seqStart ⟨dReg⟩ S_OK).2.1).2.1
       S_OK).2.1.data.current_input_state = AUDIO_STATE.RUNNING ∧
     (seqStop (seqStart (seqStop (seqStart ⟨dReg⟩ S_OK).2.1).2.1
       S_OK).2.1).1 = AUDIO_RESULT.OK ∧
     (seqStop (seqStart (seqStop (seqStart ⟨dReg⟩ S_OK).2.1).2.1
       S_OK).2.1).2.1.data.current_input_state = AUDIO_STATE.STOPPED) :=
  ⟨⟨by decide, by decide, by decide, by decide⟩,
    C3_lifecycle_cycle S_OK (by decide) data0 (by decide) 1 2 3 4 5 6 7 8
      (by decide) dReg (by decide)⟩

end AudioSysWinrt
